import Mathlib

/-!
Shallow embedding of the Moustache Escapes property-locator service
(`src/main.py`, `src/utils.py`).

Modelling conventions:
* Real-valued quantities of the source (coordinates, distances, similarity
  scores, sleep durations) are modelled as rationals (`ℚ`).
* The external collaborators — the rapidfuzz similarity scorer, the Google
  spell-suggestion service, the Nominatim geocoder and geopy's geodesic
  distance — are black boxes of the source's contract and are passed in as
  function parameters (oracles).  Everything the repository itself computes
  is translated from the source.
* The SQLite table `properties` is populated once from the seed list
  (main.py lines 85-109) and only read afterwards; it is modelled as the
  ordered list `catalog` (rowid order = insertion order, which is what the
  source's unordered SELECTs return in SQLite for such a table).
-/

namespace PropertyLocator

/-- A row of the `properties` table (main.py `init_db`): name, city label,
latitude, longitude.  The autoincrement id is implicit in the list position. -/
structure Property where
  name : String
  city : String
  latitude : ℚ
  longitude : ℚ
deriving DecidableEq, Repr

/-- The seed catalog inserted at startup (main.py lines 85-109), in insertion
order. -/
def catalog : List Property :=
  [⟨"Moustache Udaipur Luxuria", "udaipur", 24.57799888, 73.68263271⟩,
   ⟨"Moustache Udaipur", "udaipur", 24.58145726, 73.68223671⟩,
   ⟨"Moustache Udaipur Verandah", "udaipur", 24.58350565, 73.68120777⟩,
   ⟨"Moustache Jaipur", "jaipur", 27.29124839, 75.89630143⟩,
   ⟨"Moustache Jaisalmer", "jaisalmer", 27.20578572, 70.85906998⟩,
   ⟨"Moustache Jodhpur", "jodhpur", 26.30365556, 73.03570908⟩,
   ⟨"Moustache Agra", "agra", 27.26156953, 78.07524716⟩,
   ⟨"Moustache Delhi", "delhi", 28.61257139, 77.28423582⟩,
   ⟨"Moustache Rishikesh Luxuria", "rishikesh", 30.13769036, 78.32465767⟩,
   ⟨"Moustache Rishikesh Riverside Resort", "rishikesh", 30.10216117, 78.38458848⟩,
   ⟨"Moustache Hostel Varanasi", "varanasi", 25.2992622, 82.99691388⟩,
   ⟨"Moustache Goa Luxuria", "goa", 15.6135195, 73.75705228⟩,
   ⟨"Moustache Koksar Luxuria", "koksar", 32.4357785, 77.18518717⟩,
   ⟨"Moustache Daman", "daman", 20.41486263, 72.83282455⟩,
   ⟨"Panarpani Retreat", "panarpani", 22.52805539, 78.43116291⟩,
   ⟨"Moustache Pushkar", "pushkar", 26.48080513, 74.5613783⟩,
   ⟨"Moustache Khajuraho", "khajuraho", 24.84602104, 79.93139381⟩,
   ⟨"Moustache Manali", "manali", 32.28818695, 77.17702523⟩,
   ⟨"Moustache Bhimtal Luxuria", "bhimtal", 29.36552248, 79.53481747⟩,
   ⟨"Moustache Srinagar", "srinagar", 34.11547314, 74.88701741⟩,
   ⟨"Moustache Ranthambore Luxuria", "ranthambore", 26.05471373, 76.42953726⟩,
   ⟨"Moustache Coimbatore", "coimbatore", 11.02064612, 76.96293531⟩,
   ⟨"Moustache Shoja", "shoja", 31.56341267, 77.36733331⟩]

namespace Config

/-- `Config.MAX_DISTANCE_KM` (main.py line 23): the proximity-search radius. -/
def MAX_DISTANCE_KM : ℚ := 50

end Config

/-- Python's `round(x, 2)` rounds to the nearest multiple of 1/100, halves to
even (banker's rounding); here idealized over `ℚ`.  `roundHalfEven` is the
integer-valued round-half-to-even. -/
def roundHalfEven (q : ℚ) : ℤ :=
  if q - ⌊q⌋ < 1 / 2 then ⌊q⌋
  else if 1 / 2 < q - ⌊q⌋ then ⌊q⌋ + 1
  else if Even ⌊q⌋ then ⌊q⌋ else ⌊q⌋ + 1

/-- `round(x, 2)` of main.py line 238, over `ℚ`. -/
def round2 (q : ℚ) : ℚ := (roundHalfEven (q * 100) : ℚ) / 100

lemma roundHalfEven_le {q : ℚ} {n : ℤ} (h : q ≤ (n : ℚ)) : roundHalfEven q ≤ n := by
  have hfl : ⌊q⌋ ≤ n := by
    have := Int.floor_le_floor h
    rwa [Int.floor_intCast] at this
  have key : (1 : ℚ) / 2 ≤ q - ⌊q⌋ → ⌊q⌋ + 1 ≤ n := by
    intro hge
    rcases lt_or_eq_of_le hfl with h3 | h3
    · omega
    · exfalso
      have hle : q - (⌊q⌋ : ℚ) ≤ 0 := by
        rw [h3]; linarith
      linarith
  unfold roundHalfEven
  split
  · exact hfl
  · rename_i h2
    split
    · rename_i h3
      exact key (le_of_lt h3)
    · split
      · exact hfl
      · exact key (le_of_not_lt h2)

lemma round2_le {q : ℚ} (h : q ≤ 50) : round2 q ≤ 50 := by
  have h100 : q * 100 ≤ ((5000 : ℤ) : ℚ) := by push_cast; linarith
  have := roundHalfEven_le h100
  have hcast : (roundHalfEven (q * 100) : ℚ) ≤ 5000 := by exact_mod_cast this
  unfold round2
  linarith

/-- Python's `str.lower()` over the character data (the strings this service
handles are ASCII, where `Char.toLower` agrees with Python). -/
def strLower (s : String) : String := String.mk (s.data.map Char.toLower)

/-- Python's `str.strip()` / pydantic `strip_whitespace`: drop leading and
trailing whitespace. -/
def strTrim (s : String) : String :=
  String.mk (((s.data.dropWhile Char.isWhitespace).reverse.dropWhile
    Char.isWhitespace).reverse)

/-- Validation of `PropertyRequest.query` (main.py lines 30-37): the pydantic
`constr` strips surrounding whitespace and bounds the length to 2..50, the
`validator` rejects any digit and lowercases the value.  `none` models the
422 rejection FastAPI raises before `find_properties` runs. -/
def validate_query (q : String) : Option String :=
  let v := strTrim q
  if 2 ≤ v.length ∧ v.length ≤ 50 ∧ ¬ v.data.any Char.isDigit then
    some (strLower v)
  else none

/-- Scan of `l` keeping the first occurrence of each element not in `seen`. -/
def dedupFirstGo (seen : List String) : List String → List String
  | [] => []
  | x :: xs =>
    if seen.contains x then dedupFirstGo seen xs
    else x :: dedupFirstGo (x :: seen) xs

/-- First-occurrence deduplication: the `SELECT DISTINCT city FROM properties`
of main.py lines 178-180 (SQLite returns each city at its first scan
position for this unindexed table). -/
def dedupFirst (l : List String) : List String := dedupFirstGo [] l

/-- The `property_cities` list built in `suggest_correction`
(main.py lines 177-180). -/
def distinctCities : List String := dedupFirst (catalog.map Property.city)

/-- Loop of rapidfuzz's `process.extractOne` (main.py lines 182-187): scan the
choices, keep the first choice attaining the maximal score, return it only
when its score reaches `score_cutoff`.  The scorer (`fuzz.WRatio`, a 0..100
similarity) is an external library and is a parameter. -/
def extractOneGo (score : String → String → ℚ) (query : String) (cutoff : ℚ) :
    List String → Option (String × ℚ) → Option (String × ℚ)
  | [], best => best
  | c :: cs, none =>
    extractOneGo score query cutoff cs
      (if cutoff ≤ score query c then some (c, score query c) else none)
  | c :: cs, some (b, bs) =>
    extractOneGo score query cutoff cs
      (if bs < score query c then some (c, score query c) else some (b, bs))

/-- `process.extractOne(query, choices, scorer=..., score_cutoff=cutoff)`. -/
def extractOne (score : String → String → ℚ) (query : String)
    (choices : List String) (cutoff : ℚ) : Option (String × ℚ) :=
  extractOneGo score query cutoff choices none

/-- The Google-fallback tail of `suggest_correction` (main.py lines 191-198).
`g` models `google_spell_suggest` (lines 151-168): it returns the first
suggestion of the external service, or the query itself when the call fails
or yields nothing — its body is one HTTP request, so it is an oracle here. -/
def googleFallback (g : String → String) (query : String) : String :=
  let corrected := g query
  if strLower corrected ≠ strLower query ∧ corrected.data.any Char.isAlpha then
    strLower corrected
  else query

/-- `suggest_correction` (main.py lines 170-198): fuzzy-match the query
against the distinct catalog cities with cutoff 70, accept the best candidate
only when its score exceeds 70, otherwise fall back to the external
suggestion service. -/
def suggest_correction (score : String → String → ℚ) (g : String → String)
    (query : String) : String :=
  match extractOne score query distinctCities 70 with
  | some (best, s) => if 70 < s then best else googleFallback g query
  | none => googleFallback g query

/-- A row returned by `get_properties_by_city`
(`SELECT name, latitude, longitude ... WHERE city = ?`, main.py 218-221). -/
structure CityRow where
  property : String
  latitude : ℚ
  longitude : ℚ
deriving DecidableEq, Repr

/-- `get_properties_by_city` (main.py lines 214-225): exact (case-sensitive)
equality of the stored city label with the argument; rows come back in rowid
(= insertion) order. -/
def get_properties_by_city (city : String) : List CityRow :=
  (catalog.filter (fun p => p.city == city)).map
    (fun p => ⟨p.name, p.latitude, p.longitude⟩)

/-- An element of the `nearby` list of `find_nearby_properties`
(main.py lines 236-239). -/
structure NearbyEntry where
  property : String
  distance_km : ℚ
deriving DecidableEq, Repr

/-- The sort key order of main.py line 240 (`key=lambda x: x["distance_km"]`). -/
def distLE (a b : NearbyEntry) : Prop := a.distance_km ≤ b.distance_km

instance : DecidableRel distLE := fun a b =>
  inferInstanceAs (Decidable (a.distance_km ≤ b.distance_km))

instance : IsTotal NearbyEntry distLE :=
  ⟨fun a b => le_total a.distance_km b.distance_km⟩

instance : IsTrans NearbyEntry distLE :=
  ⟨fun _ _ _ h1 h2 => le_trans h1 h2⟩

/-- The `nearby` accumulation loop of `find_nearby_properties`
(main.py lines 229-239), before sorting: walk the catalog in insertion order,
keep every property whose distance from the origin is within
`Config.MAX_DISTANCE_KM`, reporting the distance rounded to 2 decimals.
`dist` models geopy's `geodesic(...).kilometers` (an external library
computing the great-circle distance, in km). -/
def nearbyUnsorted (dist : ℚ × ℚ → ℚ × ℚ → ℚ) (lat lon : ℚ) : List NearbyEntry :=
  catalog.filterMap fun p =>
    if dist (lat, lon) (p.latitude, p.longitude) ≤ Config.MAX_DISTANCE_KM then
      some ⟨p.name, round2 (dist (lat, lon) (p.latitude, p.longitude))⟩
    else none

/-- `find_nearby_properties` (main.py lines 227-240).  Python's `sorted` is a
stable sort by the given key; it is embedded as the stable
`List.insertionSort` on the key order `distLE` (any two stable sorts agree). -/
def find_nearby_properties (dist : ℚ × ℚ → ℚ × ℚ → ℚ) (lat lon : ℚ) :
    List NearbyEntry :=
  List.insertionSort distLE (nearbyUnsorted dist lat lon)

/-- Outcome of one call to the external Nominatim geocoding service:
a location with coordinates, a not-found (falsy) answer, or a raised
exception (network error / timeout). -/
inductive GeoAttempt where
  | found (lat lon : ℚ)
  | notFound
  | error
deriving DecidableEq, Repr

/-- Observable side effects of a geocoder run: how many external calls were
made, and the total `time.sleep` duration in seconds. -/
structure RetryTrace where
  calls : ℕ
  sleepSecs : ℚ
deriving DecidableEq, Repr

/-- The `for _ in range(3)` retry loop of `get_coordinates`
(utils.py lines 22-28), over the list of outcomes the successive external
calls would produce: a truthy result returns immediately; a falsy result
retries with no sleep; an exception sleeps 0.5 s (`time.sleep(0.5)`) and
retries. -/
def get_coordinates_go : List GeoAttempt → RetryTrace → Option (ℚ × ℚ) × RetryTrace
  | [], t => (none, t)
  | a :: rest, t =>
    match a with
    | .found lat lon => (some (lat, lon), ⟨t.calls + 1, t.sleepSecs⟩)
    | .notFound => get_coordinates_go rest ⟨t.calls + 1, t.sleepSecs⟩
    | .error => get_coordinates_go rest ⟨t.calls + 1, t.sleepSecs + 1 / 2⟩

/-- `get_coordinates` (utils.py lines 20-29): `range(3)` bounds the loop to
three attempts, whose would-be outcomes are the three arguments; exhaustion
returns `None`. -/
def get_coordinates (a0 a1 a2 : GeoAttempt) : Option (ℚ × ℚ) × RetryTrace :=
  get_coordinates_go [a0, a1, a2] ⟨0, 0⟩

/-- `geocode_with_nominatim` (main.py lines 200-212): a single external call
inside `try`; both a falsy result and an exception yield `None`, with no
retry and no sleep.  The argument is the outcome of that one call. -/
def geocode_with_nominatim (attempt : GeoAttempt) : Option (ℚ × ℚ) × RetryTrace :=
  match attempt with
  | .found lat lon => (some (lat, lon), ⟨1, 0⟩)
  | .notFound => (none, ⟨1, 0⟩)
  | .error => (none, ⟨1, 0⟩)

/-- The pydantic `PropertyResponse` model (main.py lines 39-42). -/
structure PropertyResponse where
  property : String
  distance_km : ℚ
  is_direct_match : Bool := false
deriving DecidableEq, Repr

/-- The pydantic `ApiResponse` model (main.py lines 44-49); `message`
defaults to `None`. -/
structure ApiResponse where
  query : String
  properties : List PropertyResponse
  message : Option String := none
deriving DecidableEq, Repr

/-- The JSON keys FastAPI serializes for a `PropertyResponse`, in field
declaration order.  pydantic v1 serializes every declared field of the
response model; nothing excludes `is_direct_match` (the main.py line 280
comment notwithstanding). -/
def PropertyResponse.serializedKeys (_ : PropertyResponse) : List String :=
  ["property", "distance_km", "is_direct_match"]

/-- The JSON keys FastAPI serializes for an `ApiResponse`, in field
declaration order.  The `exclude_unset = True` line inside
`ApiResponse.Config` (main.py line 49) is not an option pydantic v1
recognizes, and no route passes `response_model_exclude_unset`, so all three
fields — `message` included, as `null` when absent — are serialized. -/
def ApiResponse.serializedKeys (_ : ApiResponse) : List String :=
  ["query", "properties", "message"]

/-- External-call counts of one `find_properties` request: invocations of
`geocode_with_nominatim` and of `find_nearby_properties`. -/
structure CallTrace where
  geocoderCalls : ℕ
  proximityCalls : ℕ
deriving DecidableEq, Repr

/-- Steps 3 onward of `find_properties` (main.py lines 284-305), after the
geocoding fallback chain resolved to `coords` with `n` geocoder calls made. -/
def afterGeocode (query : String) (dist : ℚ × ℚ → ℚ × ℚ → ℚ)
    (coords : Option (ℚ × ℚ)) (n : ℕ) : ApiResponse × CallTrace :=
  match coords with
  | none => (⟨query, [], some "Could not determine location"⟩, ⟨n, 0⟩)
  | some (lat, lon) =>
    let props := find_nearby_properties dist lat lon
    (⟨query, props.map (fun e => ⟨e.property, e.distance_km, false⟩),
      if props = [] then some "No properties found" else none⟩, ⟨n, 1⟩)

/-- The `/find-properties` handler `find_properties` (main.py lines 264-305),
for an already-validated `query`.  Oracles: `score` the rapidfuzz scorer,
`g` the Google suggestion service, `geocode` the Nominatim lookup
(the `Option` result of `geocode_with_nominatim`), `dist` the geodesic
distance.  Besides the response, the trace records the external steps taken.
Field values never set by the handler (`is_direct_match`, `message` in the
direct branch) carry their model defaults. -/
def find_properties (score : String → String → ℚ) (g : String → String)
    (geocode : String → Option (ℚ × ℚ)) (dist : ℚ × ℚ → ℚ × ℚ → ℚ)
    (query : String) : ApiResponse × CallTrace :=
  let corrected := suggest_correction score g query
  let direct := get_properties_by_city corrected
  if direct = [] then
    match geocode corrected with
    | some c => afterGeocode query dist (some c) 1
    | none =>
      if corrected ≠ query then afterGeocode query dist (geocode query) 2
      else afterGeocode query dist none 1
  else
    (⟨query, direct.map (fun r => ⟨r.property, 0, false⟩), none⟩, ⟨0, 0⟩)

/-- Is `needle` a contiguous segment starting `hay`? (character lists) -/
def listStarts : List Char → List Char → Bool
  | [], _ => true
  | _ :: _, [] => false
  | a :: as, b :: bs => a == b && listStarts as bs

/-- Is `needle` a contiguous segment anywhere in `hay`? (character lists) -/
def listContainsSeg (needle : List Char) : List Char → Bool
  | [] => needle.isEmpty
  | b :: bs => listStarts needle (b :: bs) || listContainsSeg needle bs

/-- Case-insensitive substring containment of `needle` in `hay`. -/
def containsCI (needle hay : String) : Bool :=
  listContainsSeg (strLower needle).data (strLower hay).data

/-- Modelled from the spec (§4.2 Property Lookup): the direct-match policy
the spec states — case-insensitive substring containment of the location in
the property's display name, OR exact equality with the property's city
label.  Written from the spec's words (the source's `get_properties_by_city`
implements only the city-equality arm); defined for comparison with the
source's lookup. -/
def specDirectMatchPolicy (location : String) : List Property :=
  catalog.filter (fun p => containsCI location p.name || p.city == location)

lemma mem_dedupFirstGo (a : String) :
    ∀ (l seen : List String), a ∈ dedupFirstGo seen l ↔ (a ∈ l ∧ a ∉ seen)
  | [], seen => by simp [dedupFirstGo]
  | x :: xs, seen => by
    rw [dedupFirstGo]
    by_cases hx : seen.contains x = true
    · have hxseen : x ∈ seen := List.elem_iff.mp hx
      rw [if_pos hx, mem_dedupFirstGo a xs seen]
      constructor
      · rintro ⟨ha, hns⟩
        exact ⟨List.mem_cons_of_mem _ ha, hns⟩
      · rintro ⟨ha, hns⟩
        rcases List.mem_cons.mp ha with rfl | h
        · exact absurd hxseen hns
        · exact ⟨h, hns⟩
    · have hxns : x ∉ seen := fun h => hx (List.elem_iff.mpr h)
      rw [if_neg hx, List.mem_cons, mem_dedupFirstGo a xs (x :: seen)]
      constructor
      · rintro (rfl | ⟨hxs, hnot⟩)
        · exact ⟨List.mem_cons_self a xs, hxns⟩
        · exact ⟨List.mem_cons_of_mem _ hxs,
            fun h => hnot (List.mem_cons_of_mem _ h)⟩
      · rintro ⟨ha, hns⟩
        rcases List.mem_cons.mp ha with rfl | h
        · exact Or.inl rfl
        · by_cases hax : a = x
          · exact Or.inl hax
          · refine Or.inr ⟨h, fun hm => ?_⟩
            rcases List.mem_cons.mp hm with h2 | h2
            · exact hax h2
            · exact hns h2

lemma mem_dedupFirst (a : String) (l : List String) :
    a ∈ dedupFirst l ↔ a ∈ l := by
  rw [dedupFirst, mem_dedupFirstGo a l []]
  simp

lemma mem_distinctCities {p : Property} (hp : p ∈ catalog) :
    p.city ∈ distinctCities :=
  (mem_dedupFirst _ _).mpr (List.mem_map_of_mem Property.city hp)

lemma extractOneGo_keep (score : String → String → ℚ) (q : String) (cutoff : ℚ)
    (b : String) :
    ∀ cs : List String, (∀ c ∈ cs, score q c ≤ 100) →
      extractOneGo score q cutoff cs (some (b, 100)) = some (b, 100)
  | [], _ => rfl
  | c :: cs, h => by
    rw [extractOneGo]
    rw [if_neg (not_lt.mpr (h c (List.mem_cons_self c cs)))]
    exact extractOneGo_keep score q cutoff b cs
      (fun c2 hc2 => h c2 (List.mem_cons_of_mem _ hc2))

lemma extractOneGo_self (score : String → String → ℚ) (q : String) (cutoff : ℚ)
    (hq100 : score q q = 100) (hcut : cutoff ≤ 100) :
    ∀ (cs : List String) (best : Option (String × ℚ)),
      q ∈ cs →
      (∀ c ∈ cs, score q c ≤ 100) →
      (∀ c ∈ cs, c ≠ q → score q c < 100) →
      (∀ b bs, best = some (b, bs) → bs < 100) →
      extractOneGo score q cutoff cs best = some (q, 100)
  | [], _, hq, _, _, _ => absurd hq (List.not_mem_nil q)
  | c :: cs, best, hq, hle, hlt, hbest => by
    have hletl : ∀ c2 ∈ cs, score q c2 ≤ 100 :=
      fun c2 hc2 => hle c2 (List.mem_cons_of_mem _ hc2)
    have hlttl : ∀ c2 ∈ cs, c2 ≠ q → score q c2 < 100 :=
      fun c2 hc2 => hlt c2 (List.mem_cons_of_mem _ hc2)
    by_cases hc : c = q
    · subst hc
      cases best with
      | none =>
        rw [extractOneGo, hq100, if_pos hcut]
        exact extractOneGo_keep score c cutoff c cs hletl
      | some pr =>
        obtain ⟨b, bs⟩ := pr
        rw [extractOneGo, hq100, if_pos (hbest b bs rfl)]
        exact extractOneGo_keep score c cutoff c cs hletl
    · have hqtl : q ∈ cs := by
        rcases List.mem_cons.mp hq with h | h
        · exact absurd h.symm hc
        · exact h
      have hsc : score q c < 100 := hlt c (List.mem_cons_self c cs) hc
      cases best with
      | none =>
        rw [extractOneGo]
        refine extractOneGo_self score q cutoff hq100 hcut cs _ hqtl hletl hlttl ?_
        intro b bs hb
        split at hb
        · cases hb; exact hsc
        · cases hb
      | some pr =>
        obtain ⟨b, bs⟩ := pr
        rw [extractOneGo]
        refine extractOneGo_self score q cutoff hq100 hcut cs _ hqtl hletl hlttl ?_
        intro b2 bs2 hb
        split at hb
        · cases hb; exact hsc
        · cases hb; exact hbest b bs rfl

lemma extractOneGo_le (score : String → String → ℚ) (q : String)
    (cutoff bound : ℚ) :
    ∀ (cs : List String) (best : Option (String × ℚ)),
      (∀ c ∈ cs, score q c ≤ bound) →
      (∀ b bs, best = some (b, bs) → bs ≤ bound) →
      ∀ b bs, extractOneGo score q cutoff cs best = some (b, bs) → bs ≤ bound
  | [], best, _, hbest, b, bs, h => hbest b bs h
  | c :: cs, best, hle, hbest, b, bs, h => by
    have hletl : ∀ c2 ∈ cs, score q c2 ≤ bound :=
      fun c2 hc2 => hle c2 (List.mem_cons_of_mem _ hc2)
    have hsc : score q c ≤ bound := hle c (List.mem_cons_self c cs)
    cases best with
    | none =>
      rw [extractOneGo] at h
      refine extractOneGo_le score q cutoff bound cs _ hletl ?_ b bs h
      intro b2 bs2 hb
      split at hb
      · cases hb; exact hsc
      · cases hb
    | some pr =>
      obtain ⟨b0, bs0⟩ := pr
      rw [extractOneGo] at h
      refine extractOneGo_le score q cutoff bound cs _ hletl ?_ b bs h
      intro b2 bs2 hb
      split at hb
      · cases hb; exact hsc
      · cases hb; exact hbest b0 bs0 rfl

lemma suggest_correction_exact (score : String → String → ℚ)
    (g : String → String) (q : String)
    (hq : q ∈ distinctCities) (h100 : score q q = 100)
    (hle : ∀ c ∈ distinctCities, score q c ≤ 100)
    (hlt : ∀ c ∈ distinctCities, c ≠ q → score q c < 100) :
    suggest_correction score g q = q := by
  unfold suggest_correction extractOne
  rw [extractOneGo_self score q 70 h100 (by norm_num) distinctCities none hq hle
    hlt (fun b bs h => by cases h)]
  show (if (70 : ℚ) < 100 then q else googleFallback g q) = q
  rw [if_pos (by norm_num : (70 : ℚ) < 100)]

lemma googleFallback_id (g : String → String) (q : String) (hg : g q = q) :
    googleFallback g q = q := by
  unfold googleFallback
  rw [hg]
  rw [if_neg]
  simp

lemma suggest_correction_fb (score : String → String → ℚ)
    (g : String → String) (q : String)
    (hlow : ∀ c ∈ distinctCities, score q c ≤ 70) (hg : g q = q) :
    suggest_correction score g q = q := by
  unfold suggest_correction
  rcases hEx : extractOne score q distinctCities 70 with _ | ⟨b, bs⟩
  · simp only [hEx]
    exact googleFallback_id g q hg
  · simp only [hEx]
    have hbs : bs ≤ 70 :=
      extractOneGo_le score q 70 70 distinctCities none hlow
        (fun _ _ h => by cases h) b bs hEx
    rw [if_neg (not_lt.mpr hbs)]
    exact googleFallback_id g q hg

lemma filter_orderedInsert (d : ℚ) (x : NearbyEntry) :
    ∀ l : List NearbyEntry,
      (List.orderedInsert distLE x l).filter (fun e => e.distance_km == d) =
        if x.distance_km == d then
          x :: l.filter (fun e => e.distance_km == d)
        else l.filter (fun e => e.distance_km == d)
  | [] => by
    by_cases hpx : (x.distance_km == d) = true
    · simp [List.orderedInsert, hpx]
    · simp [List.orderedInsert, hpx]
  | y :: ys => by
    rw [List.orderedInsert]
    by_cases hxy : distLE x y
    · rw [if_pos hxy]
      by_cases hpx : (x.distance_km == d) = true
      · simp [List.filter_cons, hpx]
      · simp [List.filter_cons, hpx]
    · rw [if_neg hxy]
      have ih := filter_orderedInsert d x ys
      have hyx : y.distance_km < x.distance_km := lt_of_not_le hxy
      by_cases hpx : (x.distance_km == d) = true
      · have hxd : x.distance_km = d := beq_iff_eq.mp hpx
        have hpy : (y.distance_km == d) = false :=
          beq_eq_false_iff_ne.mpr (by rw [← hxd]; exact ne_of_lt hyx)
        simp [List.filter_cons, hpx, hpy, ih]
      · simp [List.filter_cons, hpx, ih]

lemma filter_insertionSort (d : ℚ) :
    ∀ l : List NearbyEntry,
      (List.insertionSort distLE l).filter (fun e => e.distance_km == d) =
        l.filter (fun e => e.distance_km == d)
  | [] => rfl
  | x :: xs => by
    rw [List.insertionSort, filter_orderedInsert d x (List.insertionSort distLE xs),
      filter_insertionSort d xs, List.filter_cons]

/-- Claim C1: for every query whose corrected location yields at least one
direct-match property, the orchestrator returns the direct-match result with
distance 0.0 for each matched property, and never invokes the geocoder or
the proximity search for that request. -/
theorem direct_match_short_circuits (score : String → String → ℚ)
    (g : String → String) (geocode : String → Option (ℚ × ℚ))
    (dist : ℚ × ℚ → ℚ × ℚ → ℚ) (query : String)
    (hdirect : get_properties_by_city (suggest_correction score g query) ≠ []) :
    (find_properties score g geocode dist query).2.geocoderCalls = 0 ∧
    (find_properties score g geocode dist query).2.proximityCalls = 0 ∧
    (find_properties score g geocode dist query).1.properties =
      (get_properties_by_city (suggest_correction score g query)).map
        (fun r => ⟨r.property, 0, false⟩) ∧
    ∀ e ∈ (find_properties score g geocode dist query).1.properties,
      e.distance_km = 0 := by
  have hfp : find_properties score g geocode dist query =
      (⟨query, (get_properties_by_city (suggest_correction score g query)).map
        (fun r => ⟨r.property, 0, false⟩), none⟩, ⟨0, 0⟩) := by
    simp only [find_properties]
    rw [if_neg hdirect]
  rw [hfp]
  refine ⟨rfl, rfl, rfl, ?_⟩
  intro e he
  obtain ⟨r, _, rfl⟩ := List.mem_map.mp he
  rfl

/-- Witness for C1 at the concrete query `"udaipur"` (a direct match). -/
theorem direct_match_short_circuits_witness :
    (find_properties (fun _ _ => 0) (fun s => s) (fun _ => none) (fun _ _ => 0)
      "udaipur").2.geocoderCalls = 0 ∧
    (find_properties (fun _ _ => 0) (fun s => s) (fun _ => none) (fun _ _ => 0)
      "udaipur").2.proximityCalls = 0 ∧
    PropertyResponse.distance_km ⟨"Moustache Udaipur Luxuria", 0, false⟩ = 0 := by
  have h := direct_match_short_circuits (fun _ _ => 0) (fun s => s)
    (fun _ => none) (fun _ _ => 0) "udaipur" (by decide)
  exact ⟨h.1, h.2.1, h.2.2.2 ⟨"Moustache Udaipur Luxuria", 0, false⟩ (by decide)⟩

/-- Claim C2: every pair returned by the proximity search reports a distance
of at most the configured 50 km radius; each returned entry comes from a
catalog property whose actual distance from the origin is within the radius,
and the reported value is that distance rounded to 2 decimals. -/
theorem nearby_within_radius (dist : ℚ × ℚ → ℚ × ℚ → ℚ) (lat lon : ℚ)
    (e : NearbyEntry) (he : e ∈ find_nearby_properties dist lat lon) :
    e.distance_km ≤ Config.MAX_DISTANCE_KM ∧
    ∃ p, p ∈ catalog ∧ e.property = p.name ∧
      dist (lat, lon) (p.latitude, p.longitude) ≤ Config.MAX_DISTANCE_KM ∧
      e.distance_km = round2 (dist (lat, lon) (p.latitude, p.longitude)) := by
  have he2 : e ∈ nearbyUnsorted dist lat lon :=
    (List.perm_insertionSort distLE (nearbyUnsorted dist lat lon)).mem_iff.mp he
  obtain ⟨p, hp, hfp⟩ := List.mem_filterMap.mp he2
  by_cases hd :
      dist (lat, lon) (p.latitude, p.longitude) ≤ Config.MAX_DISTANCE_KM
  · rw [if_pos hd] at hfp
    obtain rfl := Option.some.inj hfp
    exact ⟨round2_le hd, p, hp, rfl, hd, rfl⟩
  · rw [if_neg hd] at hfp
    cases hfp

/-- Witness for C2 at a constant-zero distance oracle and origin (0, 0). -/
theorem nearby_within_radius_witness :
    NearbyEntry.distance_km ⟨"Moustache Udaipur Luxuria", round2 0⟩ ≤
      Config.MAX_DISTANCE_KM := by
  have hmem : (⟨"Moustache Udaipur Luxuria", round2 0⟩ : NearbyEntry) ∈
      find_nearby_properties (fun _ _ => 0) 0 0 := by
    refine (List.perm_insertionSort distLE _).mem_iff.mpr ?_
    refine List.mem_filterMap.mpr
      ⟨⟨"Moustache Udaipur Luxuria", "udaipur", 24.57799888, 73.68263271⟩,
        ?_, ?_⟩
    · unfold catalog
      exact List.mem_cons_self _ _
    · rw [if_pos (by decide :
        ((fun _ _ => (0 : ℚ)) ((0 : ℚ), (0 : ℚ))
          ((24.57799888 : ℚ), (73.68263271 : ℚ))) ≤ Config.MAX_DISTANCE_KM)]
  exact (nearby_within_radius (fun _ _ => 0) 0 0
    ⟨"Moustache Udaipur Luxuria", round2 0⟩ hmem).1

/-- Claim C3: the proximity-search result is sorted ascending by reported
distance (so every adjacent pair is ordered), it is a permutation of the
radius-filtered catalog walk, and entries of any fixed reported distance keep
the catalog insertion order (`nearbyUnsorted` walks the catalog in insertion
order, and sorting does not reorder equal distances — stability). -/
theorem nearby_sorted_stable (dist : ℚ × ℚ → ℚ × ℚ → ℚ) (lat lon : ℚ) :
    List.Sorted distLE (find_nearby_properties dist lat lon) ∧
    (find_nearby_properties dist lat lon).Perm (nearbyUnsorted dist lat lon) ∧
    ∀ d : ℚ,
      (find_nearby_properties dist lat lon).filter
          (fun e => e.distance_km == d) =
        (nearbyUnsorted dist lat lon).filter (fun e => e.distance_km == d) :=
  ⟨List.sorted_insertionSort distLE _, List.perm_insertionSort distLE _,
   fun d => filter_insertionSort d _⟩

/-- Counterexample to C4 as stated: `geocode_with_nominatim`, the geocoder the
HTTP endpoint actually calls, makes exactly one external call even when that
call raises a transient error — no retry, no sleep — and returns None after
that single attempt (so it does not retry up to 3 times sleeping 0.5 s
between attempts). -/
theorem geocode_no_retry_cex :
    (geocode_with_nominatim GeoAttempt.error).2.calls = 1 ∧
    ¬ ((geocode_with_nominatim GeoAttempt.error).2.calls = 3) ∧
    (geocode_with_nominatim GeoAttempt.error).2.sleepSecs = 0 ∧
    (geocode_with_nominatim GeoAttempt.error).1 = none :=
  ⟨rfl, by decide, rfl, rfl⟩

/-- Claim C4 (amended): `utils.get_coordinates` makes at most 3 external
calls; when every attempt raises a transient exception it makes exactly 3
calls, sleeps 0.5 s after each failed attempt (1.5 s in total), and returns
None instead of raising.  (`main.geocode_with_nominatim`, used by the
endpoint, instead makes a single attempt — see the counterexample.) -/
theorem get_coordinates_retries (a0 a1 a2 : GeoAttempt)
    (h0 : a0 = GeoAttempt.error) (h1 : a1 = GeoAttempt.error)
    (h2 : a2 = GeoAttempt.error) :
    get_coordinates a0 a1 a2 = (none, ⟨3, 3 / 2⟩) ∧
    ∀ b0 b1 b2 : GeoAttempt, (get_coordinates b0 b1 b2).2.calls ≤ 3 := by
  subst h0; subst h1; subst h2
  constructor
  · show get_coordinates_go [GeoAttempt.error, GeoAttempt.error,
      GeoAttempt.error] ⟨0, 0⟩ = (none, ⟨3, 3 / 2⟩)
    rw [get_coordinates_go, get_coordinates_go, get_coordinates_go,
      get_coordinates_go]
    refine Prod.ext rfl ?_
    show RetryTrace.mk (0 + 1 + 1 + 1) (0 + 1 / 2 + 1 / 2 + 1 / 2) = ⟨3, 3 / 2⟩
    have hc : 0 + 1 + 1 + 1 = 3 := by norm_num
    have hs : (0 : ℚ) + 1 / 2 + 1 / 2 + 1 / 2 = 3 / 2 := by norm_num
    rw [hc, hs]
  · intro b0 b1 b2
    show (get_coordinates_go [b0, b1, b2] ⟨0, 0⟩).2.calls ≤ 3
    cases b0 <;> cases b1 <;> cases b2 <;>
      simp [get_coordinates_go]

/-- Witness for C4 at the all-error outcome sequence (plus one instance of
the call bound). -/
theorem get_coordinates_retries_witness :
    get_coordinates GeoAttempt.error GeoAttempt.error GeoAttempt.error =
      (none, ⟨3, 3 / 2⟩) ∧
    (get_coordinates GeoAttempt.notFound GeoAttempt.notFound
      GeoAttempt.notFound).2.calls ≤ 3 := by
  have h := get_coordinates_retries _ _ _ rfl rfl rfl
  exact ⟨h.1, h.2 GeoAttempt.notFound GeoAttempt.notFound GeoAttempt.notFound⟩

/-- Counterexample to C5 as stated: at the location "moustache", the source's
lookup returns no property (its policy is exact city-label equality only),
while the spec's OR-policy — substring containment in the display name OR
city equality — matches properties such as "Moustache Udaipur Luxuria".  So
the lookup does not return "exactly" the OR-policy matches. -/
theorem lookup_policy_cex :
    get_properties_by_city "moustache" = [] ∧
    "Moustache Udaipur Luxuria" ∈
      (specDirectMatchPolicy "moustache").map Property.name :=
  ⟨by decide, by decide⟩

/-- Claim C5 (amended): the direct-match lookup returns exactly the catalog
properties whose stored city label equals the location (exact string
equality — the substring-on-display-name arm of the spec's policy is not
implemented), all of them, projected to (name, latitude, longitude) rows in
catalog insertion order (sublist of the catalog walk), with no distance
computed. -/
theorem lookup_exact_city (loc : String) :
    (∀ r : CityRow, r ∈ get_properties_by_city loc ↔
      ∃ p, p ∈ catalog ∧ p.city = loc ∧
        r = ⟨p.name, p.latitude, p.longitude⟩) ∧
    (get_properties_by_city loc).Sublist
      (catalog.map fun p => (⟨p.name, p.latitude, p.longitude⟩ : CityRow)) := by
  constructor
  · intro r
    unfold get_properties_by_city
    rw [List.mem_map]
    constructor
    · rintro ⟨p, hp, rfl⟩
      have hmf := List.mem_filter.mp hp
      exact ⟨p, hmf.1, by simpa using hmf.2, rfl⟩
    · rintro ⟨p, hp, hcity, rfl⟩
      exact ⟨p, List.mem_filter.mpr ⟨hp, by simpa using hcity⟩, rfl⟩
  · exact List.Sublist.map _ (List.filter_sublist _)

/-- Claim C6: feeding a property's own stored city name as the query passes
validation and lands in the direct-match branch: the response contains that
property at distance 0.0 and neither the geocoder nor the proximity search
runs.  The scorer hypotheses state what rapidfuzz's WRatio provides on this
input: a string scores 100 against itself, scores are bounded by 100, and no
other (distinct) vocabulary city attains 100. -/
theorem city_round_trip (score : String → String → ℚ) (g : String → String)
    (geocode : String → Option (ℚ × ℚ)) (dist : ℚ × ℚ → ℚ × ℚ → ℚ)
    (p : Property) (hp : p ∈ catalog)
    (h100 : score p.city p.city = 100)
    (hle : ∀ c ∈ distinctCities, score p.city c ≤ 100)
    (hlt : ∀ c ∈ distinctCities, c ≠ p.city → score p.city c < 100) :
    validate_query p.city = some p.city ∧
    suggest_correction score g p.city = p.city ∧
    (⟨p.name, 0, false⟩ : PropertyResponse) ∈
      (find_properties score g geocode dist p.city).1.properties ∧
    (find_properties score g geocode dist p.city).2 = ⟨0, 0⟩ := by
  have hval : validate_query p.city = some p.city := by
    have hall : ∀ q ∈ catalog, validate_query q.city = some q.city := by decide
    exact hall p hp
  have hsc : suggest_correction score g p.city = p.city :=
    suggest_correction_exact score g p.city (mem_distinctCities hp) h100 hle hlt
  have hrow : (⟨p.name, p.latitude, p.longitude⟩ : CityRow) ∈
      get_properties_by_city p.city := by
    unfold get_properties_by_city
    exact List.mem_map_of_mem _ (List.mem_filter.mpr ⟨hp, by simp⟩)
  have hne : get_properties_by_city p.city ≠ [] := by
    intro h
    rw [h] at hrow
    exact List.not_mem_nil _ hrow
  have hfp : find_properties score g geocode dist p.city =
      (⟨p.city, (get_properties_by_city p.city).map
        (fun r => ⟨r.property, 0, false⟩), none⟩, ⟨0, 0⟩) := by
    simp only [find_properties]
    rw [hsc, if_neg hne]
  refine ⟨hval, hsc, ?_, ?_⟩
  · rw [hfp]
    exact List.mem_map_of_mem _ hrow
  · rw [hfp]

/-- Witness for C6 at the property "Moustache Udaipur Luxuria" (query
"udaipur") with an exact-match scorer. -/
theorem city_round_trip_witness :
    validate_query "udaipur" = some "udaipur" ∧
    suggest_correction (fun a b => if a = b then (100 : ℚ) else 0)
      (fun s => s) "udaipur" = "udaipur" ∧
    (⟨"Moustache Udaipur Luxuria", 0, false⟩ : PropertyResponse) ∈
      (find_properties (fun a b => if a = b then (100 : ℚ) else 0) (fun s => s)
        (fun _ => none) (fun _ _ => 0) "udaipur").1.properties ∧
    (find_properties (fun a b => if a = b then (100 : ℚ) else 0) (fun s => s)
      (fun _ => none) (fun _ _ => 0) "udaipur").2 = ⟨0, 0⟩ :=
  city_round_trip (fun a b => if a = b then (100 : ℚ) else 0) (fun s => s)
    (fun _ => none) (fun _ _ => 0)
    ⟨"Moustache Udaipur Luxuria", "udaipur", 24.57799888, 73.68263271⟩
    (by unfold catalog; exact List.mem_cons_self _ _)
    (by decide) (by decide) (by decide)


lemma afterGeocode_query (q : String) (dist : ℚ × ℚ → ℚ × ℚ → ℚ)
    (coords : Option (ℚ × ℚ)) (n : ℕ) :
    (afterGeocode q dist coords n).1.query = q := by
  unfold afterGeocode
  rcases coords with _ | ⟨lat, lon⟩ <;> rfl

lemma afterGeocode_message (q : String) (dist : ℚ × ℚ → ℚ × ℚ → ℚ)
    (coords : Option (ℚ × ℚ)) (n : ℕ) :
    (afterGeocode q dist coords n).1.message = none ∨
    (afterGeocode q dist coords n).1.message =
      some "Could not determine location" ∨
    (afterGeocode q dist coords n).1.message = some "No properties found" := by
  unfold afterGeocode
  rcases coords with _ | ⟨lat, lon⟩
  · exact Or.inr (Or.inl rfl)
  · by_cases hp : find_nearby_properties dist lat lon = []
    · refine Or.inr (Or.inr ?_)
      show (if find_nearby_properties dist lat lon = [] then
        some "No properties found" else none) = some "No properties found"
      rw [if_pos hp]
    · refine Or.inl ?_
      show (if find_nearby_properties dist lat lon = [] then
        some "No properties found" else none) = none
      rw [if_neg hp]

lemma afterGeocode_flag (q : String) (dist : ℚ × ℚ → ℚ × ℚ → ℚ)
    (coords : Option (ℚ × ℚ)) (n : ℕ) (e : PropertyResponse)
    (he : e ∈ (afterGeocode q dist coords n).1.properties) :
    e.is_direct_match = false := by
  unfold afterGeocode at he
  rcases coords with _ | ⟨lat, lon⟩
  · exact absurd he (List.not_mem_nil e)
  · obtain ⟨x, _, rfl⟩ := List.mem_map.mp he
    rfl

/-- Counterexample to C7 as stated: no response carries a `matched_type`,
`matched_city` or `nearest_properties` field — those names are not among the
serialized keys of the response model. -/
theorem response_shape_cex :
    "matched_type" ∉ ApiResponse.serializedKeys
      (find_properties (fun _ _ => 0) (fun s => s) (fun _ => none)
        (fun _ _ => 0) "udaipur").1 ∧
    "matched_city" ∉ ApiResponse.serializedKeys
      (find_properties (fun _ _ => 0) (fun s => s) (fun _ => none)
        (fun _ _ => 0) "udaipur").1 ∧
    "nearest_properties" ∉ ApiResponse.serializedKeys
      (find_properties (fun _ _ => 0) (fun s => s) (fun _ => none)
        (fun _ _ => 0) "udaipur").1 :=
  ⟨by decide, by decide, by decide⟩

/-- Claim C7 (amended): every response serializes exactly the fields `query`
(echoing the validated query), `properties` (elements serializing `property`,
`distance_km` and `is_direct_match`), and `message`, which is null, the
location-not-found text, or the empty-proximity text; there is no
`matched_type`/`matched_city`/`nearest_properties` field. -/
theorem response_shape (score : String → String → ℚ) (g : String → String)
    (geocode : String → Option (ℚ × ℚ)) (dist : ℚ × ℚ → ℚ × ℚ → ℚ)
    (q : String) :
    (find_properties score g geocode dist q).1.query = q ∧
    ApiResponse.serializedKeys (find_properties score g geocode dist q).1 =
      ["query", "properties", "message"] ∧
    (∀ e : PropertyResponse, e.serializedKeys =
      ["property", "distance_km", "is_direct_match"]) ∧
    ((find_properties score g geocode dist q).1.message = none ∨
     (find_properties score g geocode dist q).1.message =
       some "Could not determine location" ∨
     (find_properties score g geocode dist q).1.message =
       some "No properties found") := by
  refine ⟨?_, rfl, fun _ => rfl, ?_⟩
  · simp only [find_properties]
    split
    · split
      · exact afterGeocode_query q dist _ 1
      · split
        · exact afterGeocode_query q dist _ 2
        · exact afterGeocode_query q dist none 1
    · rfl
  · simp only [find_properties]
    split
    · split
      · exact afterGeocode_message q dist _ 1
      · split
        · exact afterGeocode_message q dist _ 2
        · exact afterGeocode_message q dist none 1
    · exact Or.inl rfl

/-- Counterexample to C8 as stated: "qwzx" passes validation, matches no
vocabulary entry (every score is 0 here) and its suggestion fallback is
rejected (the service echoes the query), yet the pipeline does not stop at
any unrecognized terminal: it invokes the geocoder (one call, not zero) and
returns the location-not-found message. -/
theorem no_unrecognized_cex :
    validate_query "qwzx" = some "qwzx" ∧
    (find_properties (fun _ _ => 0) (fun s => s) (fun _ => none)
      (fun _ _ => 0) "qwzx").2.geocoderCalls = 1 ∧
    ¬ ((find_properties (fun _ _ => 0) (fun s => s) (fun _ => none)
      (fun _ _ => 0) "qwzx").2.geocoderCalls = 0) ∧
    (find_properties (fun _ _ => 0) (fun s => s) (fun _ => none)
      (fun _ _ => 0) "qwzx").1.message = some "Could not determine location" :=
  ⟨by decide, by decide, by decide, by decide⟩

/-- Claim C8 (amended): when no vocabulary entry clears the cutoff and the
external suggestion is rejected, correction returns the query unchanged, and
the pipeline proceeds: with no direct match it geocodes the query (exactly
one geocoder call, since corrected = query suppresses the raw-query retry),
and on geocoding failure terminates with the location-not-found response —
the handler has no "unrecognized" outcome (that exists only as the 422
validation rejection before the pipeline). -/
theorem no_unrecognized_state (score : String → String → ℚ)
    (g : String → String) (geocode : String → Option (ℚ × ℚ))
    (dist : ℚ × ℚ → ℚ × ℚ → ℚ) (q : String)
    (hvocab : ∀ c ∈ distinctCities, score q c ≤ 70)
    (hg : g q = q)
    (hnodirect : get_properties_by_city q = [])
    (hgeo : geocode q = none) :
    suggest_correction score g q = q ∧
    find_properties score g geocode dist q =
      (⟨q, [], some "Could not determine location"⟩, ⟨1, 0⟩) := by
  have hsc := suggest_correction_fb score g q hvocab hg
  refine ⟨hsc, ?_⟩
  simp only [find_properties]
  rw [hsc, if_pos hnodirect, hgeo]
  show (if q ≠ q then afterGeocode q dist none 2
    else afterGeocode q dist none 1) =
    (⟨q, [], some "Could not determine location"⟩, ⟨1, 0⟩)
  rw [if_neg (by simp : ¬ q ≠ q)]
  rfl

/-- Witness for C8 at the query "qwzx" with a zero scorer, echoing
suggestion service, and failing geocoder. -/
theorem no_unrecognized_state_witness :
    suggest_correction (fun _ _ => 0) (fun s => s) "qwzx" = "qwzx" ∧
    find_properties (fun _ _ => 0) (fun s => s) (fun _ => none)
      (fun _ _ => 0) "qwzx" =
      (⟨"qwzx", [], some "Could not determine location"⟩, ⟨1, 0⟩) :=
  no_unrecognized_state (fun _ _ => 0) (fun s => s) (fun _ => none)
    (fun _ _ => 0) "qwzx" (by decide) rfl (by decide) rfl

/-- Claim C9: every element of the returned properties list carries
`is_direct_match = false` — including in the direct-match branch — because
no branch of the handler ever sets the flag. -/
theorem flag_never_set (score : String → String → ℚ) (g : String → String)
    (geocode : String → Option (ℚ × ℚ)) (dist : ℚ × ℚ → ℚ × ℚ → ℚ)
    (q : String) (e : PropertyResponse)
    (he : e ∈ (find_properties score g geocode dist q).1.properties) :
    e.is_direct_match = false := by
  revert he
  simp only [find_properties]
  split
  · split
    · exact afterGeocode_flag q dist _ 1 e
    · split
      · exact afterGeocode_flag q dist _ 2 e
      · exact afterGeocode_flag q dist none 1 e
  · intro he
    obtain ⟨r, _, rfl⟩ := List.mem_map.mp he
    rfl

/-- Witness for C9 at the direct-match response for "udaipur". -/
theorem flag_never_set_witness :
    PropertyResponse.is_direct_match ⟨"Moustache Udaipur Luxuria", 0, false⟩ =
      false :=
  flag_never_set (fun _ _ => 0) (fun s => s) (fun _ => none) (fun _ _ => 0)
    "udaipur" ⟨"Moustache Udaipur Luxuria", 0, false⟩ (by decide)

/-- Claim C10: the digit/length validation applies only to the raw input, not
to the corrected location: the raw query "zz" validates, yet a suggestion
service returning "abc123" makes suggest_correction produce a corrected
location containing digits, and one returning a 60-letter string makes it
exceed 50 characters — acceptance only needs the suggestion to differ from
the input and contain a letter. -/
theorem correction_unvalidated :
    validate_query "zz" = some "zz" ∧
    (∃ score g, (suggest_correction score g "zz").data.any Char.isDigit =
      true) ∧
    (∃ score g, 50 < (suggest_correction score g "zz").length) :=
  ⟨by decide,
   ⟨fun _ _ => 0, fun _ => "abc123", by decide⟩,
   ⟨fun _ _ => 0,
    fun _ => "aaaaaaaaaaaaaaaaaaaaaaaaaaaaaaaaaaaaaaaaaaaaaaaaaaaaaaaaaaaa",
    by decide⟩⟩


end PropertyLocator
